import Mathlib

/-!
Verification of the prototype-comments annotation-overlay core.

This file gives a shallow embedding, in Lean 4, of the core logic of the
comment-overlay library: the comment data model, the two storage adapters
(in-memory and localStorage-backed), the element-path resolver, the
per-comment screen-position computation of the overlay renderer, the
edit / drag / delete mutations, the markdown exporter, and the anchor
fraction computation of the pin-drop flow.

Modelling conventions:
- JS numbers are modelled as exact rationals (ℚ); timestamps as Int
  (milliseconds since epoch).
- The DOM is abstracted behind environments: `document.querySelector`
  becomes a function `String → QueryOutcome` (it can throw on a malformed
  selector, which the code catches), `getBoundingClientRect` becomes a
  function from abstract element ids (Nat) to `Rect`, and `window`
  scroll / viewport metrics become explicit fields.
- The localStorage cell is modelled at the value level: a `StoredCell`
  records what `JSON.parse` of the raw string under the fixed key would
  yield (absent key, empty string, a string on which parsing throws, a
  well-formed non-array value, or a well-formed array of comment records).
  `JSON.stringify` / `JSON.parse` round-tripping of plain records is a
  property of the JS standard library, outside the repository's code.
- Functions that in the source are event handlers mutating `this` are
  embedded as pure state transformers returning the new comment list plus
  a Bool flag recording whether `persist()` was invoked.
- `Date.prototype.toISOString` and JS number-to-string formatting are
  standard-library functions, not repository code; the markdown exporter
  is therefore parameterised over them.
-/

namespace PrototypeComments

/-- A bounding box as returned by `getBoundingClientRect`: viewport
coordinates of the top-left corner plus width and height. -/
structure Rect where
  left : ℚ
  top : ℚ
  width : ℚ
  height : ℚ
  deriving DecidableEq, Repr

/-- The persisted anchor record of a comment: a serialized element path and
the pin's position as fractions of that element's bounding box. -/
structure Anchor where
  path : String
  rx : ℚ
  ry : ℚ
  deriving DecidableEq, Repr

/-- The persisted comment record (`CommentPoint` in the source): id, text,
absolute page coordinates, creation timestamp, optional normalized
coordinates, optional element anchor. -/
structure CommentPoint where
  id : String
  text : String
  x : ℚ
  y : ℚ
  timestamp : Int
  nx : Option ℚ
  ny : Option ℚ
  anchor : Option Anchor
  deriving DecidableEq, Repr

/-- Outcome of `document.querySelector(path)`: it can throw on a malformed
selector, return null, or return an element (abstract id). -/
inductive QueryOutcome where
  | throws
  | notFound
  | found (el : Nat)
  deriving DecidableEq, Repr

/-- Embedding of `resolveElementByPath` (src/core/anchor.ts and the private
method of `CommentManager`): returns null when not in a browser or when the
path is falsy (the empty string); otherwise queries the document inside a
try/catch that turns a thrown selector error into null.  The source's two
branches (`path.startsWith('#')` and the default) both call
`document.querySelector(path)`, so they are one branch here. -/
def resolveElementByPath (browser : Bool) (query : String → QueryOutcome)
    (path : String) : Option Nat :=
  if !browser || path == "" then none
  else
    match query path with
    | QueryOutcome.throws => none
    | QueryOutcome.notFound => none
    | QueryOutcome.found el => some el

/-- The ambient browser state the overlay renderer reads: whether a DOM
exists, the current scroll offsets, the document query function, and the
current bounding box of each element. -/
structure RenderEnv where
  browser : Bool
  scrollX : ℚ
  scrollY : ℚ
  query : String → QueryOutcome
  rectOf : Nat → Rect

/-- Embedding of the per-comment position computation inside
`renderOverlay` (src lines 625-642): if the comment has an anchor and a DOM
exists, resolve the anchor path; on success project the anchor fractions
into the element's current bounding box, on failure fall back to the
absolute page coordinates minus the scroll offsets; without an anchor use
the absolute coordinates minus the scroll offsets (zero outside a
browser). -/
def bubbleViewportPos (env : RenderEnv) (c : CommentPoint) : ℚ × ℚ :=
  match c.anchor, env.browser with
  | some a, true =>
    match resolveElementByPath env.browser env.query a.path with
    | some el =>
      (((env.rectOf el).left + a.rx * (env.rectOf el).width),
       ((env.rectOf el).top + a.ry * (env.rectOf el).height))
    | none => (c.x - env.scrollX, c.y - env.scrollY)
  | _, _ =>
    (c.x - (if env.browser then env.scrollX else 0),
     c.y - (if env.browser then env.scrollY else 0))

/-- The overlay renders one bubble per comment, each at its computed
viewport position (the loop over `this.comments` in `renderOverlay`). -/
def renderOverlayPositions (env : RenderEnv) (comments : List CommentPoint) :
    List (ℚ × ℚ) :=
  comments.map (bubbleViewportPos env)

/-- The character class of the `escapeMarkdown` regex in the source:
backslash, backtick, asterisk, underscore, both curly braces, both square
brackets, both parentheses, hash, plus, minus, dot, bang, pipe. -/
def markdownSpecials : List Char :=
  ['\\', Char.ofNat 96, '*', '_', Char.ofNat 123, Char.ofNat 125,
   '[', ']', '(', ')', '#', '+', '-', '.', '!', '|']

/-- One step of the regex replace: a special character is replaced by a
backslash followed by itself; any other character is kept. -/
def escapeMarkdownChar (ch : Char) : List Char :=
  if ch ∈ markdownSpecials then ['\\', ch] else [ch]

/-- Embedding of `escapeMarkdown`: `input.replace(/[...]/g, m => "\\" + m)`
applied characterwise. -/
def escapeMarkdown (s : String) : String :=
  String.mk (s.data.flatMap escapeMarkdownChar)

/-- One pushed line of `toMarkdown` for a comment `c`:
`- (x, y) escaped-text em-dash iso-timestamp`.  `num` models JS
number-to-string conversion and `iso` models
`new Date(ts).toISOString()`, both JS standard-library functions. -/
def markdownBullet (num : ℚ → String) (iso : Int → String)
    (c : CommentPoint) : String :=
  "- (" ++ num c.x ++ ", " ++ num c.y ++ ") " ++ escapeMarkdown c.text
    ++ " — " ++ iso c.timestamp

/-- Embedding of `toMarkdown` (src lines 826-834): the empty list gives the
empty string; otherwise the lines `# Comments`, an empty line, and one
bullet per comment are joined with newlines. -/
def toMarkdown (num : ℚ → String) (iso : Int → String)
    (comments : List CommentPoint) : String :=
  if comments.isEmpty then ""
  else
    String.intercalate "\n"
      ("# Comments" :: "" :: comments.map (markdownBullet num iso))

/-- The environment the storage adapters read: whether a window/document
exists, whether `localStorage` is present on it, and whether a `setItem`
call would throw (quota exceeded / serialization error). -/
structure StorageEnv where
  browser : Bool
  hasLocalStorage : Bool
  saveFails : Bool

/-- The guard `isBrowser() && 'localStorage' in window` shared by all three
localStorage adapter operations. -/
def lsAvailable (env : StorageEnv) : Bool :=
  env.browser && env.hasLocalStorage

/-- The state of the localStorage cell under the fixed key
`prototype-comments`, described by what `JSON.parse` of the raw string
would yield: no key, the empty string (falsy, so treated like no key), a
string on which `JSON.parse` throws, a well-formed non-array JSON value, or
a well-formed array of comment records (the persistence format). -/
inductive StoredCell where
  | absent
  | emptyStr
  | malformed
  | nonArray
  | arrayOf (comments : List CommentPoint)
  deriving DecidableEq

/-- Embedding of the localStorage adapter's `load` (src lines 63-73):
empty list when the backend is unavailable, the key is missing or holds a
falsy string, parsing throws, or the parsed value is not an array;
otherwise the parsed array. -/
def lsLoad (env : StorageEnv) (cell : StoredCell) : List CommentPoint :=
  if !lsAvailable env then []
  else
    match cell with
    | StoredCell.absent => []
    | StoredCell.emptyStr => []
    | StoredCell.malformed => []
    | StoredCell.nonArray => []
    | StoredCell.arrayOf comments => comments

/-- Embedding of the localStorage adapter's `save`: a no-op when the
backend is unavailable or `setItem` throws (the error is swallowed);
otherwise the cell now holds the serialized array. -/
def lsSave (env : StorageEnv) (comments : List CommentPoint)
    (cell : StoredCell) : StoredCell :=
  if !lsAvailable env then cell
  else if env.saveFails then cell
  else StoredCell.arrayOf comments

/-- Embedding of the localStorage adapter's `clear`: removes the key when
the backend is available, otherwise a no-op. -/
def lsClear (env : StorageEnv) (cell : StoredCell) : StoredCell :=
  if !lsAvailable env then cell else StoredCell.absent

/-- Embedding of the memory adapter's `load`: a copy of the captured list
(copying is identity on values). -/
def memLoad (inMemory : List CommentPoint) : List CommentPoint :=
  inMemory

/-- Embedding of the memory adapter's `save`: replaces the captured list
with a copy of the argument. -/
def memSave (comments : List CommentPoint)
    (_inMemory : List CommentPoint) : List CommentPoint :=
  comments

/-- Embedding of the memory adapter's `clear`: the captured list becomes
empty. -/
def memClear (_inMemory : List CommentPoint) : List CommentPoint :=
  []

/-- Model of JS `String.prototype.trim` (a standard-library function, not
repository code): remove whitespace from both ends of the string. -/
def jsTrim (s : String) : String :=
  String.mk
    (((s.data.dropWhile Char.isWhitespace).reverse.dropWhile
        Char.isWhitespace).reverse)

/-- Embedding of JS `Array.prototype.findIndex`, with `none` for -1. -/
def jsFindIndex {α : Type} (p : α → Bool) : List α → Option Nat
  | [] => none
  | a :: rest =>
    if p a then some 0
    else Option.map (fun i => i + 1) (jsFindIndex p rest)

/-- Embedding of the `submit` closure of `openEditorFor` (src lines
321-335): trim the textarea value; if empty do nothing; otherwise find the
comment by id and, when found, replace only its text (spread keeps every
other field) and persist.  The Bool records whether `persist()` ran. -/
def editSubmit (comments : List CommentPoint) (commentId : String)
    (value : String) : List CommentPoint × Bool :=
  let next := jsTrim value
  if next = "" then (comments, false)
  else
    match jsFindIndex (fun c => c.id == commentId) comments with
    | none => (comments, false)
    | some idx =>
      match comments[idx]? with
      | none => (comments, false)
      | some c => (comments.set idx { c with text := next }, true)

/-- The window metrics read by the drag-commit handler. -/
structure ViewportEnv where
  browser : Bool
  scrollX : ℚ
  scrollY : ℚ
  innerWidth : ℚ
  innerHeight : ℚ

/-- Embedding of the `onMouseUp` drag commit inside `renderOverlay` (src
lines 770-790): convert the final viewport position to page coordinates by
adding the scroll offsets, find the comment by id and, when found, update
x, y and the normalized nx, ny (dividing by the viewport size floored at
1); the spread keeps id, text, timestamp and anchor.  The Bool records
whether `persist()` ran. -/
def dragCommit (env : ViewportEnv) (comments : List CommentPoint)
    (commentId : String) (finalVX finalVY : ℚ) : List CommentPoint × Bool :=
  let finalPX := finalVX + (if env.browser then env.scrollX else 0)
  let finalPY := finalVY + (if env.browser then env.scrollY else 0)
  match jsFindIndex (fun c => c.id == commentId) comments with
  | none => (comments, false)
  | some idx =>
    match comments[idx]? with
    | none => (comments, false)
    | some c =>
      let vw := if env.browser then max 1 env.innerWidth else 1
      let vh := if env.browser then max 1 env.innerHeight else 1
      (comments.set idx
        { c with x := finalPX, y := finalPY,
                 nx := some (finalPX / vw), ny := some (finalPY / vh) },
       true)

/-- Embedding of `deleteById` (src lines 243-251): filter out every entry
with the given id; persist (and redraw) only when the length changed.  The
Bool records whether `persist()` ran. -/
def deleteById (comments : List CommentPoint) (commentId : String) :
    List CommentPoint × Bool :=
  let remaining := comments.filter (fun c => c.id != commentId)
  (remaining, remaining.length != comments.length)

/-- `Math.min(Math.max(q, 0), 1)` as used on the anchor fractions. -/
def clamp01 (q : ℚ) : ℚ :=
  min (max q 0) 1

/-- The raw horizontal anchor fraction of the pin-drop submit (src line
477): `(currentVX - rect.left) / rect.width` when the width is positive,
else 0.5. -/
def anchorFractionX (currentVX : ℚ) (rect : Rect) : ℚ :=
  if rect.width > 0 then (currentVX - rect.left) / rect.width else 1 / 2

/-- The raw vertical anchor fraction of the pin-drop submit (src line
478): `(currentVY - rect.top) / rect.height` when the height is positive,
else 0.5. -/
def anchorFractionY (currentVY : ℚ) (rect : Rect) : ℚ :=
  if rect.height > 0 then (currentVY - rect.top) / rect.height else 1 / 2

/-- Embedding of the anchor construction of the pin-drop submit (src lines
475-481): the stored fractions are the raw fractions clamped to [0,1]. -/
def mkAnchor (path : String) (currentVX currentVY : ℚ) (rect : Rect) :
    Anchor :=
  { path := path,
    rx := clamp01 (anchorFractionX currentVX rect),
    ry := clamp01 (anchorFractionY currentVY rect) }

/-- A concrete render environment for instantiating the positioning
theorems: scrolled page, every query hits element 0, whose box is
`{left 100, top 200, width 400, height 100}`. -/
def envC1 : RenderEnv :=
  { browser := true, scrollX := 7, scrollY := 9,
    query := fun _ => QueryOutcome.found 0,
    rectOf := fun _ => { left := 100, top := 200, width := 400, height := 100 } }

/-- A concrete anchor placing the pin a quarter across and halfway down its
element. -/
def anchorC1 : Anchor :=
  { path := "div", rx := 1 / 4, ry := 1 / 2 }

/-- A concrete anchored comment. -/
def commentC1 : CommentPoint :=
  { id := "a", text := "hello", x := 50, y := 60, timestamp := 0,
    nx := none, ny := none, anchor := some anchorC1 }

/-- A concrete unanchored comment with markdown-special text. -/
def commentC2 : CommentPoint :=
  { id := "b", text := "a*b", x := 1, y := 2, timestamp := 3,
    nx := none, ny := none, anchor := none }

/-- A storage environment with a working localStorage backend. -/
def envLS : StorageEnv :=
  { browser := true, hasLocalStorage := true, saveFails := false }

/-- A concrete viewport for instantiating the drag-commit theorem. -/
def envVP : ViewportEnv :=
  { browser := true, scrollX := 5, scrollY := 6,
    innerWidth := 100, innerHeight := 50 }

/-- A degenerate bounding box (zero width and height). -/
def rectZero : Rect :=
  { left := 3, top := 4, width := 0, height := 0 }

/-- Auxiliary: `findIndex` returns -1 (here `none`) when no element
satisfies the predicate. -/
theorem jsFindIndex_eq_none {α : Type} {p : α → Bool} {l : List α}
    (h : ∀ a ∈ l, p a = false) : jsFindIndex p l = none := by
  induction l with
  | nil => rfl
  | cons a rest ih =>
    have ha : p a = false := h a (List.mem_cons_self a rest)
    have hr : jsFindIndex p rest = none :=
      ih (fun b hb => h b (List.mem_cons_of_mem a hb))
    simp [jsFindIndex, ha, hr]

/-- Claim C1: for every comment rendered by the overlay, if the comment has
an anchor whose path resolves to an element, the screen position is
`(box.left + rx * box.width, box.top + ry * box.height)` of that element's
current bounding box; if the path resolves to nothing, or the comment has
no anchor, the screen position is `(x - scrollX, y - scrollY)`; a failing
anchor falls back rather than throwing or dropping the pin (one rendered
position per comment). -/
theorem renderOverlay_screen_position (env : RenderEnv) (c : CommentPoint)
    (hb : env.browser = true) :
    (∀ a el, c.anchor = some a →
      resolveElementByPath env.browser env.query a.path = some el →
      bubbleViewportPos env c =
        ((env.rectOf el).left + a.rx * (env.rectOf el).width,
         (env.rectOf el).top + a.ry * (env.rectOf el).height)) ∧
    (∀ a, c.anchor = some a →
      resolveElementByPath env.browser env.query a.path = none →
      bubbleViewportPos env c = (c.x - env.scrollX, c.y - env.scrollY)) ∧
    (c.anchor = none →
      bubbleViewportPos env c = (c.x - env.scrollX, c.y - env.scrollY)) ∧
    (∀ l : List CommentPoint,
      (renderOverlayPositions env l).length = l.length) := by
  refine ⟨?_, ?_, ?_, ?_⟩
  · intro a el ha hres
    rw [hb] at hres
    simp [bubbleViewportPos, ha, hb, hres]
  · intro a ha hres
    rw [hb] at hres
    simp [bubbleViewportPos, ha, hb, hres]
  · intro ha
    simp [bubbleViewportPos, ha, hb]
  · intro l
    simp [renderOverlayPositions]

/-- Instantiation of the C1 theorem: with box
`{left 100, top 200, width 400, height 100}` and fractions `(1/4, 1/2)`,
the anchored pin renders at `(200, 250)`. -/
theorem renderOverlay_screen_position_witness :
    bubbleViewportPos envC1 commentC1 = (200, 250) := by
  have h := (renderOverlay_screen_position envC1 commentC1 rfl).1 anchorC1 0
    rfl (by decide)
  rw [h]
  norm_num [envC1, anchorC1]

/-- Claim C2: markdown export of the empty list is the empty string; for a
nonempty list it is the `# Comments` heading, a blank line, and one bullet
per comment in list order, each of the form
`- (x, y) escaped-text em-dash timestamp`; the special markdown characters
(among them `*`, `_`, `[`, `]`) are backslash-escaped. -/
theorem toMarkdown_format (num : ℚ → String) (iso : Int → String)
    (comments : List CommentPoint) :
    (comments = [] → toMarkdown num iso comments = "") ∧
    (comments ≠ [] →
      toMarkdown num iso comments =
        String.intercalate "\n"
          ("# Comments" :: "" :: comments.map (markdownBullet num iso)) ∧
      (comments.map (markdownBullet num iso)).length = comments.length) ∧
    (∀ c : CommentPoint, markdownBullet num iso c =
      "- (" ++ num c.x ++ ", " ++ num c.y ++ ") " ++ escapeMarkdown c.text
        ++ " — " ++ iso c.timestamp) ∧
    (∀ ch : Char, ch = '*' ∨ ch = '_' ∨ ch = '[' ∨ ch = ']' →
      escapeMarkdownChar ch = ['\\', ch]) := by
  refine ⟨?_, ?_, ?_, ?_⟩
  · intro h
    subst h
    rfl
  · intro h
    refine ⟨?_, by simp⟩
    cases comments with
    | nil => exact absurd rfl h
    | cons a rest => rfl
  · intro c
    rfl
  · intro ch h
    rcases h with h | h | h | h <;> subst h <;> decide

/-- Instantiation of the C2 theorem at the empty list and at a singleton
whose text contains `*`. -/
theorem toMarkdown_format_witness :
    toMarkdown (fun _ => "1") (fun _ => "T") [] = "" ∧
    toMarkdown (fun _ => "1") (fun _ => "T") [commentC2] =
      String.intercalate "\n"
        ("# Comments" :: "" ::
          [commentC2].map (markdownBullet (fun _ => "1") (fun _ => "T"))) ∧
    escapeMarkdownChar '*' = ['\\', '*'] := by
  have h0 := toMarkdown_format (fun _ => "1") (fun _ => "T")
    ([] : List CommentPoint)
  have h1 := toMarkdown_format (fun _ => "1") (fun _ => "T") [commentC2]
  exact ⟨h0.1 rfl, (h1.2.1 (by simp)).1, h1.2.2.2 '*' (Or.inl rfl)⟩

/-- Claim C3: the localStorage-backed `load` returns the persisted list,
and returns the empty list whenever the backend is unavailable, nothing
(or a falsy string) is stored, the stored value is malformed JSON, or it
parses to a non-array; being a total function, it never throws. -/
theorem lsLoad_defaults_empty (env : StorageEnv) (cell : StoredCell) :
    (lsAvailable env = false → lsLoad env cell = []) ∧
    (cell = StoredCell.absent → lsLoad env cell = []) ∧
    (cell = StoredCell.emptyStr → lsLoad env cell = []) ∧
    (cell = StoredCell.malformed → lsLoad env cell = []) ∧
    (cell = StoredCell.nonArray → lsLoad env cell = []) ∧
    (∀ l, lsAvailable env = true → cell = StoredCell.arrayOf l →
      lsLoad env cell = l) := by
  refine ⟨?_, ?_, ?_, ?_, ?_, ?_⟩
  · intro h
    simp [lsLoad, h]
  · intro h
    subst h
    cases hA : lsAvailable env <;> simp [lsLoad, hA]
  · intro h
    subst h
    cases hA : lsAvailable env <;> simp [lsLoad, hA]
  · intro h
    subst h
    cases hA : lsAvailable env <;> simp [lsLoad, hA]
  · intro h
    subst h
    cases hA : lsAvailable env <;> simp [lsLoad, hA]
  · intro l hA hc
    subst hc
    simp [lsLoad, hA]

/-- Instantiation of the C3 theorem: malformed content loads as empty, an
unavailable backend loads as empty, and a stored array loads as itself. -/
theorem lsLoad_defaults_empty_witness :
    lsLoad envLS StoredCell.malformed = [] ∧
    lsLoad { browser := false, hasLocalStorage := false, saveFails := false }
      (StoredCell.arrayOf [commentC2]) = [] ∧
    lsLoad envLS (StoredCell.arrayOf [commentC2]) = [commentC2] := by
  refine ⟨?_, ?_, ?_⟩
  · exact (lsLoad_defaults_empty envLS StoredCell.malformed).2.2.2.1 rfl
  · exact (lsLoad_defaults_empty _ _).1 rfl
  · exact (lsLoad_defaults_empty envLS _).2.2.2.2.2 [commentC2] rfl rfl

/-- Claim C4: for both adapters, `save L` then `load` yields `L` (for the
durable adapter, with the backend available and the write succeeding), and
`clear` then `load` yields the empty list. -/
theorem storage_roundtrip (env : StorageEnv) (cell : StoredCell)
    (mem L : List CommentPoint)
    (hb : env.browser = true) (hls : env.hasLocalStorage = true)
    (hsf : env.saveFails = false) :
    lsLoad env (lsSave env L cell) = L ∧
    lsLoad env (lsClear env cell) = [] ∧
    memLoad (memSave L mem) = L ∧
    memLoad (memClear mem) = [] := by
  refine ⟨?_, ?_, rfl, rfl⟩
  · simp [lsLoad, lsSave, lsAvailable, hb, hls, hsf]
  · simp [lsLoad, lsClear, lsAvailable, hb, hls]

/-- Instantiation of the C4 theorem at a working backend and a singleton
list. -/
theorem storage_roundtrip_witness :
    lsLoad envLS (lsSave envLS [commentC2] StoredCell.absent) = [commentC2] ∧
    lsLoad envLS (lsClear envLS StoredCell.absent) = [] ∧
    memLoad (memSave [commentC2] []) = [commentC2] ∧
    memLoad (memClear []) = [] :=
  storage_roundtrip envLS StoredCell.absent [] [commentC2] rfl rfl rfl

/-- Claim C5: submitting an edit is a no-op (list unchanged, nothing
persisted) when the trimmed text is empty or no comment has the id;
otherwise exactly the targeted comment's text is replaced while its id, x,
y, timestamp, nx, ny and anchor are unchanged, the other comments are
unchanged, and the result is persisted. -/
theorem editSubmit_spec (comments : List CommentPoint)
    (commentId value : String) :
    (jsTrim value = "" →
      editSubmit comments commentId value = (comments, false)) ∧
    ((∀ c ∈ comments, c.id ≠ commentId) →
      editSubmit comments commentId value = (comments, false)) ∧
    (∀ idx c, jsTrim value ≠ "" →
      jsFindIndex (fun c => c.id == commentId) comments = some idx →
      comments[idx]? = some c →
      editSubmit comments commentId value =
        (comments.set idx { c with text := jsTrim value }, true) ∧
      ({ c with text := jsTrim value } : CommentPoint).id = c.id ∧
      ({ c with text := jsTrim value } : CommentPoint).x = c.x ∧
      ({ c with text := jsTrim value } : CommentPoint).y = c.y ∧
      ({ c with text := jsTrim value } : CommentPoint).timestamp
        = c.timestamp ∧
      ({ c with text := jsTrim value } : CommentPoint).nx = c.nx ∧
      ({ c with text := jsTrim value } : CommentPoint).ny = c.ny ∧
      ({ c with text := jsTrim value } : CommentPoint).anchor = c.anchor ∧
      (∀ j, j ≠ idx →
        (comments.set idx { c with text := jsTrim value })[j]?
          = comments[j]?)) := by
  refine ⟨?_, ?_, ?_⟩
  · intro h
    simp [editSubmit, h]
  · intro h
    have hfind : jsFindIndex (fun c => c.id == commentId) comments = none :=
      jsFindIndex_eq_none (fun a ha => beq_eq_false_iff_ne.mpr (h a ha))
    by_cases hv : jsTrim value = "" <;> simp [editSubmit, hv, hfind]
  · intro idx c hv hfind hget
    refine ⟨?_, rfl, rfl, rfl, rfl, rfl, rfl, rfl, ?_⟩
    · simp [editSubmit, hv, hfind, hget]
    · intro j hj
      exact List.getElem?_set_ne (Ne.symm hj)

/-- Instantiation of the C5 theorem: editing the only comment with text
needing a trim replaces just the text and persists. -/
theorem editSubmit_spec_witness :
    editSubmit [commentC2] "b" " hi " =
      ([commentC2].set 0 { commentC2 with text := jsTrim " hi " }, true) :=
  ((editSubmit_spec [commentC2] "b" " hi ").2.2 0 commentC2
    (by decide) (by decide) rfl).1

/-- Claim C6: committing a drag updates only the dragged comment's x, y
(final viewport position plus scroll offsets) and nx, ny; its id, text,
timestamp and anchor are unchanged, the other comments are unchanged, and
the new state is persisted. -/
theorem dragCommit_spec (env : ViewportEnv) (comments : List CommentPoint)
    (commentId : String) (finalVX finalVY : ℚ) (idx : Nat)
    (c : CommentPoint)
    (hb : env.browser = true)
    (hfind : jsFindIndex (fun c => c.id == commentId) comments = some idx)
    (hget : comments[idx]? = some c) :
    dragCommit env comments commentId finalVX finalVY =
      (comments.set idx
        { c with
            x := finalVX + env.scrollX, y := finalVY + env.scrollY,
            nx := some ((finalVX + env.scrollX) / max 1 env.innerWidth),
            ny := some ((finalVY + env.scrollY) / max 1 env.innerHeight) },
       true) ∧
    ({ c with
        x := finalVX + env.scrollX, y := finalVY + env.scrollY,
        nx := some ((finalVX + env.scrollX) / max 1 env.innerWidth),
        ny := some ((finalVY + env.scrollY) / max 1 env.innerHeight) }
      : CommentPoint).id = c.id ∧
    ({ c with
        x := finalVX + env.scrollX, y := finalVY + env.scrollY,
        nx := some ((finalVX + env.scrollX) / max 1 env.innerWidth),
        ny := some ((finalVY + env.scrollY) / max 1 env.innerHeight) }
      : CommentPoint).text = c.text ∧
    ({ c with
        x := finalVX + env.scrollX, y := finalVY + env.scrollY,
        nx := some ((finalVX + env.scrollX) / max 1 env.innerWidth),
        ny := some ((finalVY + env.scrollY) / max 1 env.innerHeight) }
      : CommentPoint).timestamp = c.timestamp ∧
    ({ c with
        x := finalVX + env.scrollX, y := finalVY + env.scrollY,
        nx := some ((finalVX + env.scrollX) / max 1 env.innerWidth),
        ny := some ((finalVY + env.scrollY) / max 1 env.innerHeight) }
      : CommentPoint).anchor = c.anchor ∧
    (∀ j, j ≠ idx →
      (comments.set idx
        { c with
            x := finalVX + env.scrollX, y := finalVY + env.scrollY,
            nx := some ((finalVX + env.scrollX) / max 1 env.innerWidth),
            ny := some ((finalVY + env.scrollY) / max 1 env.innerHeight) })[j]?
        = comments[j]?) := by
  refine ⟨?_, rfl, rfl, rfl, rfl, ?_⟩
  · simp [dragCommit, hb, hfind, hget]
  · intro j hj
    exact List.getElem?_set_ne (Ne.symm hj)

/-- Instantiation of the C6 theorem: dragging the only comment to viewport
`(30, 40)` with scroll `(5, 6)` and viewport `100 by 50` stores page
position `(35, 46)` and normalized `(35/100, 46/50)`. -/
theorem dragCommit_spec_witness :
    dragCommit envVP [commentC2] "b" 30 40 =
      ([commentC2].set 0
        { commentC2 with
            x := 30 + envVP.scrollX, y := 40 + envVP.scrollY,
            nx := some ((30 + envVP.scrollX) / max 1 envVP.innerWidth),
            ny := some ((40 + envVP.scrollY) / max 1 envVP.innerHeight) },
       true) :=
  (dragCommit_spec envVP [commentC2] "b" 30 40 0 commentC2
    rfl (by decide) rfl).1

/-- Claim C7: `deleteById` removes the matching entry and persists; when no
comment has the id it is a no-op: the list is unchanged (in length and
content) and the persisted snapshot is not rewritten; no exception is
raised (the function is total). -/
theorem deleteById_spec (comments : List CommentPoint)
    (commentId : String) :
    ((∃ c ∈ comments, c.id = commentId) →
      deleteById comments commentId =
        (comments.filter (fun c => c.id != commentId), true)) ∧
    ((∀ c ∈ comments, c.id ≠ commentId) →
      deleteById comments commentId = (comments, false)) := by
  constructor
  · rintro ⟨c, hc, hid⟩
    have hlt : (comments.filter (fun c => c.id != commentId)).length
        < comments.length :=
      List.length_filter_lt_length_iff_exists.mpr ⟨c, hc, by simp [hid]⟩
    have hne : ((comments.filter (fun c => c.id != commentId)).length
        != comments.length) = true :=
      bne_iff_ne.mpr (Nat.ne_of_lt hlt)
    simp [deleteById, hne]
  · intro h
    have hall : ∀ c ∈ comments, (c.id != commentId) = true :=
      fun c hc => bne_iff_ne.mpr (h c hc)
    have hfe : comments.filter (fun c => c.id != commentId) = comments :=
      List.filter_eq_self.mpr hall
    simp [deleteById, hfe]

/-- Instantiation of the C7 theorem: deleting the only comment removes it
and persists; deleting an unknown id leaves the list untouched with no
persist. -/
theorem deleteById_spec_witness :
    deleteById [commentC2] "b" =
      ([commentC2].filter (fun c => c.id != "b"), true) ∧
    deleteById [commentC2] "zzz" = ([commentC2], false) := by
  constructor
  · exact (deleteById_spec [commentC2] "b").1 ⟨commentC2, by simp, rfl⟩
  · exact (deleteById_spec [commentC2] "zzz").2 (by decide)

/-- Claim C8: the anchor fractions stored by the pin-drop flow are clamped
to the unit interval: `0 ≤ rx ≤ 1` and `0 ≤ ry ≤ 1` for every placement
point and bounding box. -/
theorem mkAnchor_fractions_in_unit_interval (path : String)
    (vx vy : ℚ) (rect : Rect) :
    0 ≤ (mkAnchor path vx vy rect).rx ∧ (mkAnchor path vx vy rect).rx ≤ 1 ∧
    0 ≤ (mkAnchor path vx vy rect).ry ∧ (mkAnchor path vx vy rect).ry ≤ 1 := by
  have h0 : ∀ q : ℚ, 0 ≤ clamp01 q :=
    fun q => le_min (le_max_right q 0) zero_le_one
  have h1 : ∀ q : ℚ, clamp01 q ≤ 1 :=
    fun q => min_le_right _ _
  exact ⟨h0 _, h1 _, h0 _, h1 _⟩

/-- Claim C9: element-path resolution never throws (it is a total
function): the empty path resolves to not-found, a path on which the
document query throws resolves to not-found, an unmatched path resolves to
not-found, and a successful resolution can only come from a browser
context, a nonempty path, and a successful query. -/
theorem resolveElementByPath_safe (browser : Bool)
    (query : String → QueryOutcome) (path : String) :
    (resolveElementByPath browser query "" = none) ∧
    (query path = QueryOutcome.throws →
      resolveElementByPath browser query path = none) ∧
    (query path = QueryOutcome.notFound →
      resolveElementByPath browser query path = none) ∧
    (∀ el, resolveElementByPath browser query path = some el →
      browser = true ∧ path ≠ "" ∧ query path = QueryOutcome.found el) := by
  refine ⟨?_, ?_, ?_, ?_⟩
  · simp [resolveElementByPath]
  · intro h
    cases hbw : (!browser || path == "") <;>
      simp [resolveElementByPath, hbw, h]
  · intro h
    cases hbw : (!browser || path == "") <;>
      simp [resolveElementByPath, hbw, h]
  · intro el h
    cases hbw : (!browser || path == "") with
    | true =>
      rw [resolveElementByPath, hbw] at h
      simp at h
    | false =>
      have hbp := hbw
      simp only [Bool.or_eq_false_iff, Bool.not_eq_true',
        beq_eq_false_iff_ne] at hbp
      rw [resolveElementByPath, hbw] at h
      refine ⟨?_, ?_, ?_⟩
      · have := hbp.1
        simp_all
      · exact hbp.2
      · cases hq : query path <;> rw [hq] at h <;> simp_all

/-- Instantiation of the C9 theorem: a path on which the selector query
throws resolves to not-found, and the empty path resolves to not-found. -/
theorem resolveElementByPath_safe_witness :
    resolveElementByPath true (fun _ => QueryOutcome.throws) "???" = none ∧
    resolveElementByPath true (fun _ => QueryOutcome.notFound) "" = none := by
  constructor
  · exact (resolveElementByPath_safe true
      (fun _ => QueryOutcome.throws) "???").2.1 rfl
  · exact (resolveElementByPath_safe true
      (fun _ => QueryOutcome.notFound) "x").1

/-- Claim C10: if the anchor target's bounding box has zero (or negative)
width, the stored rx defaults to 0.5, and independently a zero (or
negative) height makes ry default to 0.5, instead of dividing by the
degenerate dimension. -/
theorem mkAnchor_degenerate_box (path : String) (vx vy : ℚ)
    (rect : Rect) :
    (rect.width ≤ 0 → (mkAnchor path vx vy rect).rx = 1 / 2) ∧
    (rect.height ≤ 0 → (mkAnchor path vx vy rect).ry = 1 / 2) := by
  constructor
  · intro h
    have hf : anchorFractionX vx rect = 1 / 2 := by
      unfold anchorFractionX
      rw [if_neg (not_lt.mpr h)]
    show clamp01 (anchorFractionX vx rect) = 1 / 2
    rw [hf]
    unfold clamp01
    norm_num
  · intro h
    have hf : anchorFractionY vy rect = 1 / 2 := by
      unfold anchorFractionY
      rw [if_neg (not_lt.mpr h)]
    show clamp01 (anchorFractionY vy rect) = 1 / 2
    rw [hf]
    unfold clamp01
    norm_num

/-- Instantiation of the C10 theorem at a zero-size bounding box. -/
theorem mkAnchor_degenerate_box_witness :
    (mkAnchor "p" 10 20 rectZero).rx = 1 / 2 ∧
    (mkAnchor "p" 10 20 rectZero).ry = 1 / 2 :=
  ⟨(mkAnchor_degenerate_box "p" 10 20 rectZero).1 (le_refl 0),
   (mkAnchor_degenerate_box "p" 10 20 rectZero).2 (le_refl 0)⟩

end PrototypeComments
